import Mathlib

/-!
Verification development for the transcript tool repository.

The Python sources are shallowly embedded: machine floats are modelled by
exact rationals, Python round (round half to even on the argument value) is
modelled by pythonRound, Python str.strip by pyStrip, fallible functions
return Except, and stateful code is modelled by explicit state passing.
-/

namespace TranscriptTool

/-- Python round() on the exact value of its argument: round half to even. -/
def pythonRound (q : ℚ) : ℤ :=
  let f := ⌊q⌋
  let r := q - f
  if r < 1/2 then f
  else if 1/2 < r then f + 1
  else if f % 2 = 0 then f else f + 1

/-- Python str.strip(): drop whitespace from both ends. -/
def pyStrip (s : String) : String :=
  String.mk (((s.data.dropWhile Char.isWhitespace).reverse.dropWhile
    Char.isWhitespace).reverse)

/-- Zero padding of a decimal rendering, as in a Python format spec such as 02d
for a non-negative integer. -/
def zfill (w : ℕ) (s : String) : String :=
  if s.length < w then String.mk (List.replicate (w - s.length) '0') ++ s else s

/-- Render an integer zero padded to a minimum width (non-negative case of a
Python 0Nd format spec). -/
def zpad (w : ℕ) (n : ℤ) : String := zfill w (toString n)

/-- utils.format_timestamp: milliseconds by round(seconds * 1000), then a
divmod chain by 3600000, 60000, 1000, rendered HH:MM:SS,mmm with widths
2, 2, 2, 3.  Python divmod is floor division and modulus. -/
def format_timestamp (seconds : ℚ) : String :=
  let milliseconds_total : ℤ := pythonRound (seconds * 1000)
  let hours := Int.fdiv milliseconds_total 3600000
  let remainder1 := Int.fmod milliseconds_total 3600000
  let minutes := Int.fdiv remainder1 60000
  let remainder2 := Int.fmod remainder1 60000
  let seconds_whole := Int.fdiv remainder2 1000
  let milliseconds := Int.fmod remainder2 1000
  zpad 2 hours ++ ":" ++ zpad 2 minutes ++ ":" ++ zpad 2 seconds_whole
    ++ "," ++ zpad 3 milliseconds

/-- One element of the segment list passed to utils.segments_to_srt: a dict
with keys start, end, text (the end key is renamed stop, end being reserved
in Lean). -/
structure SrtInput where
  start : ℚ
  stop : ℚ
  text : String
deriving Repr, DecidableEq

/-- The line-collecting loop of utils.segments_to_srt: enumerate(segments,
start=1) assigns the running index to every input element, whether or not
its trimmed text is empty; blank elements are skipped but still advance the
index. -/
def srtLines : ℕ → List SrtInput → List String
  | _, [] => []
  | index, seg :: rest =>
    let text := pyStrip seg.text
    if text = "" then srtLines (index + 1) rest
    else
      toString index
        :: (format_timestamp seg.start ++ " --> " ++ format_timestamp seg.stop)
        :: text
        :: ""
        :: srtLines (index + 1) rest

/-- utils.segments_to_srt (identical code also appears as cli.segments_to_srt). -/
def segments_to_srt (segments : List SrtInput) : String :=
  let lines := srtLines 1 segments
  if lines = [] then "" else pyStrip (String.intercalate "\n" lines) ++ "\n"

/-- Unfolding helper: once the rounded millisecond total of a concrete input
is known, the rest of format_timestamp is integer and string computation. -/
theorem format_timestamp_eval (seconds : ℚ) (L : ℤ)
    (h : pythonRound (seconds * 1000) = L) :
    format_timestamp seconds =
      zpad 2 (Int.fdiv L 3600000) ++ ":"
        ++ zpad 2 (Int.fdiv (Int.fmod L 3600000) 60000) ++ ":"
        ++ zpad 2 (Int.fdiv (Int.fmod (Int.fmod L 3600000) 60000) 1000)
        ++ "," ++ zpad 3 (Int.fmod (Int.fmod (Int.fmod L 3600000) 60000) 1000) := by
  unfold format_timestamp
  rw [h]

theorem pythonRound_zero : pythonRound (0 * 1000) = 0 := by
  unfold pythonRound
  norm_num

theorem pythonRound_one : pythonRound (1 * 1000) = 1000 := by
  unfold pythonRound
  norm_num

theorem pythonRound_two : pythonRound (2 * 1000) = 2000 := by
  unfold pythonRound
  norm_num

/-- The tie case at 1234.5 milliseconds: round half to even gives 1234. -/
theorem pythonRound_tie : pythonRound (12345 / 10000 * 1000) = 1234 := by
  unfold pythonRound
  norm_num

example : format_timestamp 0 = "00:00:00,000" := by
  rw [format_timestamp_eval 0 0 pythonRound_zero]; decide

example : format_timestamp (12345 / 10000) = "00:00:01,234" := by
  rw [format_timestamp_eval (12345 / 10000) 1234 pythonRound_tie]; decide

example : format_timestamp 1 = "00:00:01,000" := by
  rw [format_timestamp_eval 1 1000 pythonRound_one]; decide

example :
    segments_to_srt [⟨0, 1, "  "⟩, ⟨1, 2, "Next"⟩]
      = "2\n00:00:01,000 --> 00:00:02,000\nNext\n" := by
  have e1 := format_timestamp_eval 1 1000 pythonRound_one
  have e2 := format_timestamp_eval 2 2000 pythonRound_two
  simp only [segments_to_srt, srtLines, e1, e2]
  decide

/-! ## engine.py -/

/-- One result of a faster-whisper transcription call on one chunk: a start
offset, an end offset and a text, all relative to the chunk (end renamed
stop, end being reserved in Lean). -/
structure ChunkResult where
  start : ℚ
  stop : ℚ
  text : String
deriving Repr, DecidableEq

/-- engine.SubtitleSegment (end renamed stop). -/
structure SubtitleSegment where
  index : ℕ
  start : ℚ
  stop : ℚ
  text : String
deriving Repr, DecidableEq

/-- Result of the inner result loop of transcribe_with_cache on one chunk:
the next global segment index, the final last_end, and the segments
appended to collected, in order. -/
structure EmitResult where
  segment_index : ℕ
  last_end : ℚ
  segs : List SubtitleSegment
deriving Repr, DecidableEq

/-- The inner loop of transcribe_with_cache over the results of one chunk:
empty trimmed text is skipped; otherwise the segment is emitted at
offset + start and offset + stop with the running global index, and
last_end is raised to the emitted end. -/
def emitResults (offset : ℚ) : ℕ → ℚ → List ChunkResult → EmitResult
  | segment_index, last_end, [] =>
    { segment_index := segment_index, last_end := last_end, segs := [] }
  | segment_index, last_end, r :: rest =>
    let text := pyStrip r.text
    if text = "" then emitResults offset segment_index last_end rest
    else
      let start := offset + r.start
      let stop := offset + r.stop
      let out := emitResults offset (segment_index + 1) (max last_end stop) rest
      { out with
        segs := { index := segment_index, start := start, stop := stop,
                  text := text } :: out.segs }

/-- Running state of the chunk loop of transcribe_with_cache. -/
structure TranscribeState where
  offset : ℚ
  segment_index : ℕ
  collected : List SubtitleSegment
deriving Repr, DecidableEq

/-- One iteration of the chunk loop of transcribe_with_cache: run the result
loop with last_end initialised to offset, then advance
offset = max(last_end, offset + segment_length). -/
def processChunk (segment_length : ℚ) (st : TranscribeState)
    (results : List ChunkResult) : TranscribeState :=
  let out := emitResults st.offset st.segment_index st.offset results
  { offset := max out.last_end (st.offset + segment_length)
    segment_index := out.segment_index
    collected := st.collected ++ out.segs }

/-- The whole chunk loop of transcribe_with_cache, starting from offset 0 and
segment index 1 with nothing collected. -/
def transcribeFold (segment_length : ℚ)
    (chunks : List (List ChunkResult)) : TranscribeState :=
  chunks.foldl (processChunk segment_length) ⟨0, 1, []⟩

/-- State of the chunk loop of transcribe_with_cache just before chunk i. -/
def stateAfter (segment_length : ℚ) (chunks : List (List ChunkResult))
    (i : ℕ) : TranscribeState :=
  transcribeFold segment_length (chunks.take i)

/-- Running offset of transcribe_with_cache before chunk i (so after the
first i chunks). -/
def offsetAfter (segment_length : ℚ) (chunks : List (List ChunkResult))
    (i : ℕ) : ℚ :=
  (stateAfter segment_length chunks i).offset

/-- The subtitle segments that transcribe_with_cache emits while processing
chunk i. -/
def chunkSegs (segment_length : ℚ) (chunks : List (List ChunkResult))
    (i : ℕ) : List SubtitleSegment :=
  (emitResults (offsetAfter segment_length chunks i)
    (stateAfter segment_length chunks i).segment_index
    (offsetAfter segment_length chunks i) (chunks.getD i [])).segs

/-- engine.assemble_transcript: join the segment texts with newlines and
strip; an empty result raises RuntimeError("Transcription produced no
text"); with a subtitle path, an empty SRT rendering raises
RuntimeError("No subtitle content generated").  File writes are modelled
by returning the written contents. -/
def assemble_transcript (segments : List SubtitleSegment)
    (want_subtitle : Bool) : Except String (String × Option String) :=
  let transcript_text :=
    pyStrip (String.intercalate "\n" (segments.map (fun s => s.text)))
  if transcript_text = "" then Except.error "Transcription produced no text"
  else if want_subtitle then
    let srt_content :=
      segments_to_srt (segments.map (fun s => ⟨s.start, s.stop, s.text⟩))
    if srt_content = "" then Except.error "No subtitle content generated"
    else Except.ok (transcript_text, some srt_content)
  else Except.ok (transcript_text, none)

/-- Python exceptions relevant to ModelCache.get: the except clause catches
RuntimeError and ValueError; anything else propagates uncaught. -/
inductive PyExc where
  | runtimeError (msg : String)
  | valueError (msg : String)
  | otherError (msg : String)
deriving Repr, DecidableEq

/-- Whether the except (RuntimeError, ValueError) clause of ModelCache.get
catches the exception. -/
def caughtByComputeFallback : PyExc → Bool
  | .runtimeError _ => true
  | .valueError _ => true
  | .otherError _ => false

/-- Cache key of ModelCache: (model_name, device, compute_type). -/
abbrev ModelKey := String × String × String

/-- engine.ModelCache.get, with the WhisperModel constructor abstracted as
ctor over an opaque handle type M and the class-level dict as a map.
Returns the result, the updated map, and how many constructor calls were
made (0 on a cache hit, 1 normally, 2 when the float32 fallback ran). -/
def ModelCache.get {M : Type} (ctor : ModelKey → Except PyExc M)
    (models : ModelKey → Option M)
    (model_name device compute_type : String) :
    Except PyExc M × (ModelKey → Option M) × ℕ :=
  let key : ModelKey := (model_name, device, compute_type)
  match models key with
  | some m => (Except.ok m, models, 0)
  | none =>
    match ctor key with
    | Except.ok m => (Except.ok m, Function.update models key (some m), 1)
    | Except.error exc =>
      if caughtByComputeFallback exc then
        if compute_type = "float32" then (Except.error exc, models, 1)
        else
          match ctor (model_name, device, "float32") with
          | Except.ok fallback_model =>
            (Except.ok fallback_model,
              Function.update
                (Function.update models key (some fallback_model))
                (model_name, device, "float32") (some fallback_model), 2)
          | Except.error exc2 => (Except.error exc2, models, 2)
      else (Except.error exc, models, 1)

/-- Behaviour of the external ffmpeg invocation in engine.split_audio. -/
inductive SplitOutcome where
  | ffmpegFails
  | noChunks
  | chunks (files : List String)
deriving Repr, DecidableEq

/-- engine.split_audio, reduced to its resource behaviour: tempfile.mkdtemp
always creates the directory first (first component), then ffmpeg either
raises CalledProcessError, or the glob finds no segments and
RuntimeError is raised, or the ordered chunk files are returned.
split_audio itself removes nothing. -/
def split_audio : SplitOutcome → Bool × Except String (List String)
  | .ffmpegFails => (true, Except.error "CalledProcessError: ffmpeg")
  | .noChunks => (true, Except.error "FFmpeg failed to generate audio segments")
  | .chunks files => (true, Except.ok files)

/-- Resource behaviour of transcribe_with_cache: temp_dir is initialised to
None and only assigned from the successful return of split_audio; the
finally block removes the directory exactly when the variable was
assigned.  rest_ok abstracts whether everything after split_audio (model
load, transcription, assembly) succeeds.  Returns (directory created,
directory removed, overall result). -/
def transcribe_with_cache_cleanup (split : SplitOutcome) (rest_ok : Bool) :
    Bool × Bool × Except String Unit :=
  match split_audio split with
  | (created, Except.error e) => (created, false, Except.error e)
  | (created, Except.ok _) =>
    (created, true, if rest_ok then Except.ok () else Except.error "downstream failure")

/-! ## web.py -/

/-- web.TaskState: the in-memory Job Record of one task. -/
structure TaskState where
  status : String
  progress : ℕ
  message : Option String
  model : String
  keep_source_language : Bool
  skip_subtitle : Bool
  paused : Bool
  subtitle_file : Option String
deriving Repr, DecidableEq

/-- web.pause_task on a task that exists: raise HTTPException(400) when
status is completed or error (leaving the record untouched), otherwise
update status, message and paused via _update_task.  Returned as
(HTTP error code if raised, resulting record). -/
def pause_task (state : TaskState) : Option ℕ × TaskState :=
  if state.status = "completed" ∨ state.status = "error" then (some 400, state)
  else
    (none, { state with status := "paused", message := some "Paused by user",
                        paused := true })

/-- web.resume_task on a task that exists, same shape as pause_task. -/
def resume_task (state : TaskState) : Option ℕ × TaskState :=
  if state.status = "completed" ∨ state.status = "error" then (some 400, state)
  else
    (none, { state with status := "processing", message := some "Resuming task",
                        paused := false })

/-! ## tasks.py -/

/-- The metadata fields of tasks.transcribe_job that the claims are about. -/
structure JobMeta where
  status : String
  progress : ℕ
  message : String
  subtitle_ready : Bool
deriving Repr, DecidableEq

/-- The outcome handling of tasks.transcribe_job around its transcription
call (tasks.py:114-139), with the outcome of that call abstracted: on
return, meta.update(status completed, progress 100, message
"Transcription complete", subtitle_ready = subtitle requested); on any
exception, meta.update(status error, progress 100, message str(exc),
subtitle_ready False). -/
def transcribe_job_outcome (result : Except String Unit) (want_subtitle : Bool)
    (meta : JobMeta) : JobMeta :=
  match result with
  | Except.ok _ =>
    { meta with status := "completed", progress := 100,
                message := "Transcription complete",
                subtitle_ready := want_subtitle }
  | Except.error exc =>
    { meta with status := "error", progress := 100, message := exc,
                subtitle_ready := false }

/-- The keyword arguments tasks.transcribe_job passes to its transcription
call transcribe_media (tasks.py:96-112), in source order. -/
def transcribe_job_call_kwargs : List String :=
  ["model", "output_path", "keep_source_language", "device", "temperature",
   "beam_size", "verbose", "write_subtitle", "subtitle_output_path",
   "segment_length", "progress_callback", "pause_check"]

/-- The keyword parameters accepted by cli.transcribe_media
(cli.py:118-131), the function tasks.py imports as transcribe_media
(tasks.py:16). -/
def transcribe_media_keywords : List String :=
  ["model", "output_path", "keep_source_language", "device", "temperature",
   "beam_size", "verbose", "write_subtitle", "subtitle_output_path",
   "model_loader"]

/-- Python calling convention: a call raises TypeError exactly when some
passed keyword argument is not among the keyword parameters of the
callee. -/
def callRaisesTypeError (passed accepted : List String) : Bool :=
  !(passed.all fun kw => accepted.contains kw)

/-- The progress value the progress_callback lambda of tasks.transcribe_job
(tasks.py:108-110) would report after k of n chunks:
10 + int(min(max(k / n, 0.0), 1.0) * 70). -/
def chunkProgress (n k : ℕ) : ℕ :=
  10 + (⌊min (max ((k : ℚ) / (n : ℚ)) 0) 1 * 70⌋).toNat

/-- The (status, progress) pairs tasks.transcribe_job writes on a run, as
the source stands: the initial meta.update and the update_progress call
both record ("processing", 5) (tasks.py:67-73); the transcription call
then raises TypeError at once, because it passes the keywords
segment_length, progress_callback and pause_check to cli.transcribe_media,
which accepts none of them, so neither the per-chunk callback nor the
pause_check loop ever runs and the except branch records ("error", 100)
(tasks.py:127-139). -/
def transcribe_job_writes : List (String × ℕ) :=
  [("processing", 5), ("processing", 5), ("error", 100)]

/-! ## cli.py -/

/-- Python exceptions raised by cli.transcribe_media itself. -/
inductive CliError where
  | fileNotFoundError (msg : String)
  | valueError (msg : String)
  | runtimeError (msg : String)
deriving Repr, DecidableEq

/-- The stem of a path: everything before the last dot, the whole path when
it has no dot (the final-component refinements of pathlib are irrelevant
to the inputs used here). -/
def stem (cs : List Char) : List Char :=
  if '.' ∈ cs then ((cs.reverse.dropWhile (fun c => c ≠ '.')).tail).reverse
  else cs

/-- pathlib.Path.with_suffix: replace the extension. -/
def with_suffix (path suffix : String) : String :=
  String.mk (stem path.data) ++ suffix

/-- cli.transcribe_media with the whisper model abstracted: engine_text and
engine_segments are what model.transcribe would return.  Returns the
result ((transcript path, subtitle path) or the raised exception),
whether the model loader was reached, and the list of files written, in
order. -/
def transcribe_media (input_exists : Bool) (input_path : String)
    (output_path : Option String) (write_subtitle : Bool)
    (subtitle_output_path : Option String)
    (engine_text : String) (engine_segments : List SrtInput) :
    Except CliError (String × Option String) × Bool × List String :=
  if ¬ input_exists then
    (Except.error (.fileNotFoundError ("Input file not found: " ++ input_path)),
      false, [])
  else
    let transcript_path := output_path.getD (with_suffix input_path ".txt")
    if ¬ write_subtitle ∧ subtitle_output_path.isSome then
      (Except.error
        (.valueError "Cannot provide subtitle_output_path when subtitles are disabled"),
        false, [])
    else
      -- resolve_device and model_loader run from here on
      let transcript_text := pyStrip engine_text
      if transcript_text = "" then
        (Except.error (.runtimeError "Whisper returned an empty transcript"),
          true, [])
      else if write_subtitle then
        let subtitle_path := subtitle_output_path.getD (with_suffix input_path ".srt")
        let subtitle_content := segments_to_srt engine_segments
        if subtitle_content = "" then
          (Except.error
            (.runtimeError "Whisper returned no segments for subtitle generation"),
            true, [transcript_path])
        else
          (Except.ok (transcript_path, some subtitle_path), true,
            [transcript_path, subtitle_path])
      else (Except.ok (transcript_path, none), true, [transcript_path])

/-! ## Claim theorems -/

/-- C2 (code_bug evaluation): segments_to_srt numbers cues by input position
(enumerate starting at 1), so a leading blank segment consumes index 1 and
the surviving cue is numbered 2, not 1 as the claim, the spec and the
repository test test_segments_to_srt_ignores_empty_text require. -/
theorem segments_to_srt_blank_consumes_index :
    segments_to_srt [⟨0, 1, "  "⟩, ⟨1, 2, "Next"⟩]
        = "2\n00:00:01,000 --> 00:00:02,000\nNext\n"
      ∧ "2\n00:00:01,000 --> 00:00:02,000\nNext\n"
        ≠ "1\n00:00:01,000 --> 00:00:02,000\nNext\n" := by
  constructor
  · have e1 := format_timestamp_eval 1 1000 pythonRound_one
    have e2 := format_timestamp_eval 2 2000 pythonRound_two
    simp only [segments_to_srt, srtLines, e1, e2]
    decide
  · decide

/-- C4 (counterexample): a pause request on a job whose status is queued is
not rejected and moves the job to paused, contradicting the claim that
only a processing job can transition to paused. -/
theorem pause_task_moves_queued :
    (pause_task ⟨"queued", 0, some "Task queued", "medium", false, false,
        false, none⟩).1 = none
      ∧ (pause_task ⟨"queued", 0, some "Task queued", "medium", false, false,
          false, none⟩).2.status = "paused" := by
  constructor <;> rfl

/-- C4 (amended): a pause request moves any job whose status is not completed
and not error - including queued - to paused, setting the message to
"Paused by user" and leaving progress unchanged. -/
theorem pause_task_nonterminal_transition (state : TaskState)
    (hc : state.status ≠ "completed") (he : state.status ≠ "error") :
    pause_task state
      = (none, { state with status := "paused",
                            message := some "Paused by user",
                            paused := true }) := by
  unfold pause_task
  rw [if_neg (not_or.mpr ⟨hc, he⟩)]

/-- Witness for the amended C4 theorem at a concrete processing record. -/
theorem pause_task_nonterminal_transition_witness :
    ((⟨"processing", 30, some "Processing", "base", false, false, false, none⟩ :
        TaskState).status ≠ "completed")
      ∧ ((⟨"processing", 30, some "Processing", "base", false, false, false,
          none⟩ : TaskState).status ≠ "error")
      ∧ pause_task ⟨"processing", 30, some "Processing", "base", false, false,
          false, none⟩
        = (none, ⟨"paused", 30, some "Paused by user", "base", false, false,
            true, none⟩) :=
  ⟨by decide, by decide,
    pause_task_nonterminal_transition _ (by decide) (by decide)⟩

/-- C5: pause and resume requests against a job whose status is completed or
error are rejected with HTTP 400 and leave the record entirely
unchanged. -/
theorem pause_resume_reject_terminal (state : TaskState)
    (h : state.status = "completed" ∨ state.status = "error") :
    pause_task state = (some 400, state)
      ∧ resume_task state = (some 400, state) := by
  constructor
  · unfold pause_task; rw [if_pos h]
  · unfold resume_task; rw [if_pos h]

/-- Witness for C5 at a concrete completed record. -/
theorem pause_resume_reject_terminal_witness :
    ((⟨"completed", 100, some "Transcription complete", "medium", false, false,
        false, some "sample.srt"⟩ : TaskState).status = "completed"
      ∨ (⟨"completed", 100, some "Transcription complete", "medium", false,
          false, false, some "sample.srt"⟩ : TaskState).status = "error")
      ∧ pause_task ⟨"completed", 100, some "Transcription complete", "medium",
          false, false, false, some "sample.srt"⟩
        = (some 400, ⟨"completed", 100, some "Transcription complete", "medium",
            false, false, false, some "sample.srt"⟩)
      ∧ resume_task ⟨"completed", 100, some "Transcription complete", "medium",
          false, false, false, some "sample.srt"⟩
        = (some 400, ⟨"completed", 100, some "Transcription complete", "medium",
            false, false, false, some "sample.srt"⟩) :=
  ⟨Or.inl rfl,
    (pause_resume_reject_terminal _ (Or.inl rfl)).1,
    (pause_resume_reject_terminal _ (Or.inl rfl)).2⟩

/-- C7 (code_bug evaluation): when ffmpeg fails or produces zero chunks, the
temporary directory created by split_audio is never removed, because
temp_dir in transcribe_with_cache is still None when the finally block
runs; on the paths where split_audio returns, the directory is removed on
success and on downstream failure alike. -/
theorem split_failure_leaks_temp_dir :
    transcribe_with_cache_cleanup .ffmpegFails true
        = (true, false, Except.error "CalledProcessError: ffmpeg")
      ∧ transcribe_with_cache_cleanup .noChunks true
        = (true, false, Except.error "FFmpeg failed to generate audio segments")
      ∧ transcribe_with_cache_cleanup (.chunks ["segment_0000.wav"]) true
        = (true, true, Except.ok ())
      ∧ transcribe_with_cache_cleanup (.chunks ["segment_0000.wav"]) false
        = (true, true, Except.error "downstream failure") := by
  refine ⟨rfl, rfl, rfl, rfl⟩

/-- C8 (code_bug evaluation): format_timestamp(0.0) is "00:00:00,000" as
claimed, but format_timestamp(1.2345) is "00:00:01,234", not
"00:00:01,235": 1.2345 * 1000 evaluates to exactly 1234.5 in double
precision and Python round() rounds the tie half to even, down to 1234,
contradicting the claim and the repository test
test_format_timestamp_rounding. -/
theorem format_timestamp_tie_rounds_to_even :
    format_timestamp 0 = "00:00:00,000"
      ∧ format_timestamp (12345 / 10000) = "00:00:01,234"
      ∧ "00:00:01,234" ≠ "00:00:01,235" := by
  refine ⟨?_, ?_, by decide⟩
  · rw [format_timestamp_eval 0 0 pythonRound_zero]; decide
  · rw [format_timestamp_eval (12345 / 10000) 1234 pythonRound_tie]; decide

/-- C10 (counterexample): with a missing input file, write_subtitle False and
a subtitle output path supplied, transcribe_media raises
FileNotFoundError, not ValueError: the existence check precedes the
subtitle-flag validation. -/
theorem transcribe_media_missing_input_wins :
    transcribe_media false "video.mp4" none false (some "subs.srt") "hello" []
      = (Except.error (.fileNotFoundError "Input file not found: video.mp4"),
          false, []) := by
  rfl

/-- C10 (amended): when the input file exists, transcribe_media with
write_subtitle False and a supplied subtitle output path raises
ValueError("Cannot provide subtitle_output_path when subtitles are
disabled") before the model loader runs and before any file is
written. -/
theorem transcribe_media_subtitle_flag_validation (input_path : String)
    (output_path : Option String) (subtitle_output_path : String)
    (engine_text : String) (engine_segments : List SrtInput) :
    transcribe_media true input_path output_path false
        (some subtitle_output_path) engine_text engine_segments
      = (Except.error
          (.valueError "Cannot provide subtitle_output_path when subtitles are disabled"),
          false, []) := by
  unfold transcribe_media
  simp

/-- C3: on a cache miss where construction fails with an error the fallback
clause catches, ModelCache.get retries exactly once with float32 when the
requested compute type is not float32, and on success registers the
fallback handle under both the requested key and the float32 key, so a
repeated identical request is a cache hit that calls the constructor zero
times; when the requested compute type is already float32 the error
propagates unchanged and the cache is untouched. -/
theorem model_cache_fallback {M : Type} (ctor : ModelKey → Except PyExc M)
    (models : ModelKey → Option M) (model_name device compute_type : String)
    (exc : PyExc) (fallback_model : M)
    (hmiss : models (model_name, device, compute_type) = none)
    (hctor : ctor (model_name, device, compute_type) = Except.error exc)
    (hcaught : caughtByComputeFallback exc = true) :
    (compute_type ≠ "float32" →
      ctor (model_name, device, "float32") = Except.ok fallback_model →
      ∃ models₁,
        ModelCache.get ctor models model_name device compute_type
            = (Except.ok fallback_model, models₁, 2)
          ∧ models₁ (model_name, device, compute_type) = some fallback_model
          ∧ models₁ (model_name, device, "float32") = some fallback_model
          ∧ ModelCache.get ctor models₁ model_name device compute_type
            = (Except.ok fallback_model, models₁, 0))
      ∧ (compute_type = "float32" →
        ModelCache.get ctor models model_name device compute_type
          = (Except.error exc, models, 1)) := by
  constructor
  · intro hne hfb
    have hkeys : ((model_name, device, compute_type) : ModelKey)
        ≠ (model_name, device, "float32") := fun hcontra =>
      hne (congrArg (fun k : ModelKey => k.2.2) hcontra)
    have hlook :
        Function.update
            (Function.update models (model_name, device, compute_type)
              (some fallback_model))
            (model_name, device, "float32") (some fallback_model)
            (model_name, device, compute_type) = some fallback_model := by
      rw [Function.update_noteq hkeys, Function.update_same]
    refine ⟨Function.update
        (Function.update models (model_name, device, compute_type)
          (some fallback_model))
        (model_name, device, "float32") (some fallback_model), ?_, hlook,
      Function.update_same _ _ _, ?_⟩
    · simp [ModelCache.get, hmiss, hctor, hcaught, hfb, hne]
    · simp only [ModelCache.get, hlook]
  · intro hf32
    subst hf32
    simp [ModelCache.get, hmiss, hctor, hcaught]

/-- When every result of a chunk has blank trimmed text, the result loop
emits nothing and leaves index and last_end unchanged. -/
theorem emitResults_all_blank (offset : ℚ) (rs : List ChunkResult)
    (h : ∀ r ∈ rs, pyStrip r.text = "") (idx : ℕ) (le : ℚ) :
    emitResults offset idx le rs = ⟨idx, le, []⟩ := by
  induction rs generalizing idx le with
  | nil => rfl
  | cons r rest ih =>
    have hr : pyStrip r.text = "" := h r (List.mem_cons_self r rest)
    have hrest : ∀ r' ∈ rest, pyStrip r'.text = "" :=
      fun r' hr' => h r' (List.mem_cons_of_mem r hr')
    simp only [emitResults]
    rw [if_pos hr]
    exact ih hrest idx le

/-- When every result of every chunk has blank trimmed text, the chunk loop
of transcribe_with_cache collects nothing. -/
theorem transcribeFold_all_blank_collected (segment_length : ℚ)
    (chunks : List (List ChunkResult))
    (h : ∀ c ∈ chunks, ∀ r ∈ c, pyStrip r.text = "") :
    (transcribeFold segment_length chunks).collected = [] := by
  suffices hgen : ∀ st : TranscribeState, st.collected = [] →
      (chunks.foldl (processChunk segment_length) st).collected = [] from
    hgen ⟨0, 1, []⟩ rfl
  induction chunks with
  | nil => intro st hst; exact hst
  | cons c rest ih =>
    intro st hst
    have hc : ∀ r ∈ c, pyStrip r.text = "" := h c (List.mem_cons_self c rest)
    have hrest : ∀ c' ∈ rest, ∀ r ∈ c', pyStrip r.text = "" :=
      fun c' hc' => h c' (List.mem_cons_of_mem c hc')
    refine ih hrest _ ?_
    simp only [processChunk, emitResults_all_blank st.offset c hc, hst,
      List.nil_append]

/-- C6 (code_bug evaluation): engine.assemble_transcript does fail with
"Transcription produced no text" on the all-blank collection of the engine
chunk loop, and the except branch of tasks.transcribe_job would convert
exactly that failure into the claimed terminal record - but the
orchestrator never invokes this mechanism: tasks.py imports
transcribe_media from cli, its call passes the keyword segment_length
(together with progress_callback and pause_check) which cli.transcribe_media
does not accept, so the call raises TypeError before any transcription,
and cli.transcribe_media itself never calls assemble_transcript; its
empty-transcript failure carries a different message. -/
theorem empty_engine_output_wiring_bug :
    assemble_transcript
        (transcribeFold 60 [[⟨0, 1, "  "⟩], []]).collected true
        = Except.error "Transcription produced no text"
      ∧ transcribe_job_outcome (Except.error "Transcription produced no text")
          true ⟨"processing", 5, "Preparing audio", false⟩
        = ⟨"error", 100, "Transcription produced no text", false⟩
      ∧ callRaisesTypeError transcribe_job_call_kwargs transcribe_media_keywords
        = true
      ∧ transcribe_job_call_kwargs.contains "segment_length" = true
      ∧ transcribe_media_keywords.contains "segment_length" = false
      ∧ (transcribe_media true "upload.mp4" (some "out.txt") true
            (some "subs.srt") "  " []).1
        = Except.error (.runtimeError "Whisper returned an empty transcript")
      ∧ "Whisper returned an empty transcript"
        ≠ "Transcription produced no text" := by
  refine ⟨?_, rfl, rfl, rfl, rfl, rfl, by decide⟩
  rw [transcribeFold_all_blank_collected 60 [[⟨0, 1, "  "⟩], []] (by decide)]
  rfl

/-- The chunk progress callback value is monotone in the processed count. -/
theorem chunkProgress_mono (n : ℕ) {j k : ℕ} (h : j ≤ k) :
    chunkProgress n j ≤ chunkProgress n k := by
  unfold chunkProgress
  have hdiv : ((j : ℚ) / (n : ℚ)) ≤ (k : ℚ) / (n : ℚ) := by
    rcases Nat.eq_zero_or_pos n with hn | hn
    · subst hn; simp
    · have hc : (0 : ℚ) < (n : ℚ) := by exact_mod_cast hn
      exact (div_le_div_iff_of_pos_right hc).mpr (by exact_mod_cast h)
  have h1 : min (max ((j : ℚ) / (n : ℚ)) 0) 1 * 70
      ≤ min (max ((k : ℚ) / (n : ℚ)) 0) 1 * 70 :=
    mul_le_mul_of_nonneg_right
      (min_le_min (max_le_max hdiv le_rfl) le_rfl) (by norm_num)
  exact Nat.add_le_add_left (Int.toNat_le_toNat (Int.floor_le_floor h1)) 10

/-- The chunk progress callback value stays in the reserved band: at most
80. -/
theorem chunkProgress_le_80 (n k : ℕ) : chunkProgress n k ≤ 80 := by
  unfold chunkProgress
  have h1 : min (max ((k : ℚ) / (n : ℚ)) 0) 1 * 70 ≤ 70 := by
    have hmin : min (max ((k : ℚ) / (n : ℚ)) 0) 1 ≤ 1 := min_le_right _ _
    calc min (max ((k : ℚ) / (n : ℚ)) 0) 1 * 70 ≤ 1 * 70 :=
          mul_le_mul_of_nonneg_right hmin (by norm_num)
      _ = 70 := by norm_num
  have h2 : (⌊min (max ((k : ℚ) / (n : ℚ)) 0) 1 * 70⌋).toNat ≤ 70 := by
    rw [Int.toNat_le]
    calc ⌊min (max ((k : ℚ) / (n : ℚ)) 0) 1 * 70⌋ ≤ ⌊(70 : ℚ)⌋ :=
          Int.floor_le_floor h1
      _ = 70 := by norm_num
  omega

/-- The chunk progress callback value is at least 10. -/
theorem chunkProgress_ge_10 (n k : ℕ) : 10 ≤ chunkProgress n k :=
  Nat.le_add_right 10 _

/-- Consecutive chunk progress callback values never decrease. -/
theorem chunkProgress_step (n k : ℕ) :
    chunkProgress n k ≤ chunkProgress n (k + 1) :=
  chunkProgress_mono n (Nat.le_succ k)

/-- C9 (code_bug evaluation): as the source stands, every run of
tasks.transcribe_job writes ("processing", 5) twice and then
("error", 100): the transcription call raises TypeError because it passes
keywords cli.transcribe_media does not accept, so the per-chunk progress
writes in the reserved band never occur and no job ever completes.  The
degenerate write sequence satisfies the claimed monotonicity and the
100-iff-terminal property only trivially, and the band mapping of the
never-invoked progress_callback lambda indeed lies within 10 to 80, below
100, and is monotone. -/
theorem job_progress_wiring_bug :
    transcribe_job_writes
        = [("processing", 5), ("processing", 5), ("error", 100)]
      ∧ List.Chain' (· ≤ ·)
          ((transcribe_job_writes.filter (fun sp => sp.1 == "processing")).map
            (fun sp => sp.2))
      ∧ (transcribe_job_writes.all
          (fun sp => (sp.2 == 100) == (sp.1 == "completed" || sp.1 == "error")))
        = true
      ∧ callRaisesTypeError transcribe_job_call_kwargs transcribe_media_keywords
        = true
      ∧ (∀ n k : ℕ, 10 ≤ chunkProgress n k ∧ chunkProgress n k ≤ 80
          ∧ chunkProgress n k < 100
          ∧ chunkProgress n k ≤ chunkProgress n (k + 1)) := by
  refine ⟨rfl, ?_, rfl, rfl, fun n k =>
    ⟨chunkProgress_ge_10 n k, chunkProgress_le_80 n k,
      lt_of_le_of_lt (chunkProgress_le_80 n k) (by omega),
      chunkProgress_step n k⟩⟩
  show List.Chain' (· ≤ ·) [5, 5]
  exact List.chain'_pair.mpr (le_refl 5)

/-- The result loop never lowers last_end. -/
theorem emitResults_last_end_le (offset : ℚ) (rs : List ChunkResult) :
    ∀ (idx : ℕ) (le : ℚ), le ≤ (emitResults offset idx le rs).last_end := by
  induction rs with
  | nil => intro idx le; exact le_refl le
  | cons r rest ih =>
    intro idx le
    by_cases h : pyStrip r.text = ""
    · simp only [emitResults]
      rw [if_pos h]
      exact ih idx le
    · simp only [emitResults]
      rw [if_neg h]
      calc le ≤ max le (offset + r.stop) := le_max_left _ _
        _ ≤ (emitResults offset (idx + 1) (max le (offset + r.stop))
              rest).last_end := ih _ _

/-- Every segment the result loop emits has its end at most the final
last_end. -/
theorem emitResults_stop_le (offset : ℚ) (rs : List ChunkResult) :
    ∀ (idx : ℕ) (le : ℚ), ∀ s ∈ (emitResults offset idx le rs).segs,
      s.stop ≤ (emitResults offset idx le rs).last_end := by
  induction rs with
  | nil => intro idx le s hs; simp [emitResults] at hs
  | cons r rest ih =>
    intro idx le s hs
    by_cases h : pyStrip r.text = ""
    · simp only [emitResults] at hs ⊢
      rw [if_pos h] at hs ⊢
      exact ih idx le s hs
    · simp only [emitResults] at hs ⊢
      rw [if_neg h] at hs ⊢
      rcases List.mem_cons.mp hs with rfl | hs'
      · exact le_trans (le_max_right le _)
          (emitResults_last_end_le offset rest _ _)
      · exact ih _ _ s hs'

/-- When every result starts at a non-negative chunk-relative time, every
emitted segment starts no earlier than the running offset. -/
theorem emitResults_start_ge (offset : ℚ) (rs : List ChunkResult)
    (hwf : ∀ r ∈ rs, 0 ≤ r.start) :
    ∀ (idx : ℕ) (le : ℚ), ∀ s ∈ (emitResults offset idx le rs).segs,
      offset ≤ s.start := by
  induction rs with
  | nil => intro idx le s hs; simp [emitResults] at hs
  | cons r rest ih =>
    intro idx le s hs
    have hr : 0 ≤ r.start := hwf r (List.mem_cons_self r rest)
    have hrest : ∀ r' ∈ rest, 0 ≤ r'.start :=
      fun r' h' => hwf r' (List.mem_cons_of_mem r h')
    by_cases h : pyStrip r.text = ""
    · simp only [emitResults] at hs
      rw [if_pos h] at hs
      exact ih hrest idx le s hs
    · simp only [emitResults] at hs
      rw [if_neg h] at hs
      rcases List.mem_cons.mp hs with rfl | hs'
      · exact le_add_of_nonneg_right hr
      · exact ih hrest _ _ s hs'

/-- One more chunk in the prefix: the state folds once more when the chunk
exists and is unchanged past the end of the list. -/
theorem stateAfter_succ (segment_length : ℚ)
    (chunks : List (List ChunkResult)) (i : ℕ) :
    stateAfter segment_length chunks (i + 1)
      = match chunks[i]? with
        | some c => processChunk segment_length
            (stateAfter segment_length chunks i) c
        | none => stateAfter segment_length chunks i := by
  unfold stateAfter transcribeFold
  rw [List.take_succ, List.foldl_append]
  cases chunks[i]? <;> rfl

/-- The fold state before chunk i matches the emitted-segment view: the
offset after one more chunk dominates the last_end of the result loop of
that chunk. -/
theorem chunkSegs_stop_le_offsetAfter (segment_length : ℚ)
    (chunks : List (List ChunkResult)) (i : ℕ) :
    ∀ t ∈ chunkSegs segment_length chunks i,
      t.stop ≤ offsetAfter segment_length chunks (i + 1) := by
  intro t ht
  by_cases hlen : i < chunks.length
  · have hget : chunks[i]? = some chunks[i] := List.getElem?_eq_getElem hlen
    have hoff : offsetAfter segment_length chunks (i + 1)
        = (processChunk segment_length (stateAfter segment_length chunks i)
            chunks[i]).offset := by
      unfold offsetAfter
      rw [stateAfter_succ, hget]
    have hgetD : chunks.getD i [] = chunks[i] :=
      List.getD_eq_getElem chunks [] hlen
    unfold chunkSegs at ht
    rw [hgetD] at ht
    have hstop := emitResults_stop_le (offsetAfter segment_length chunks i)
      chunks[i] (stateAfter segment_length chunks i).segment_index
      (offsetAfter segment_length chunks i) t ht
    rw [hoff]
    exact le_trans hstop (le_max_left _ _)
  · exfalso
    have hgetD : chunks.getD i [] = [] :=
      List.getD_eq_default chunks [] (Nat.le_of_not_lt hlen)
    unfold chunkSegs at ht
    rw [hgetD] at ht
    simp [emitResults] at ht

/-- The running offset never decreases across a chunk. -/
theorem offsetAfter_mono (segment_length : ℚ)
    (chunks : List (List ChunkResult)) (i : ℕ) :
    offsetAfter segment_length chunks i
      ≤ offsetAfter segment_length chunks (i + 1) := by
  unfold offsetAfter
  rw [stateAfter_succ]
  cases chunks[i]? with
  | none => exact le_refl _
  | some c =>
    exact le_trans (emitResults_last_end_le _ c _ _)
      (le_max_left _ _)

/-- The running offset advances by at least the nominal duration across each
existing chunk. -/
theorem offsetAfter_step (segment_length : ℚ)
    (chunks : List (List ChunkResult)) (i : ℕ) (h : i < chunks.length) :
    offsetAfter segment_length chunks i + segment_length
      ≤ offsetAfter segment_length chunks (i + 1) := by
  unfold offsetAfter
  rw [stateAfter_succ, List.getElem?_eq_getElem h]
  exact le_max_right _ _

/-- After the first i+1 chunks the running offset is at least (i+1) times the
nominal chunk duration. -/
theorem offsetAfter_ge_nominal (segment_length : ℚ)
    (chunks : List (List ChunkResult)) :
    ∀ i, i < chunks.length →
      ((i : ℚ) + 1) * segment_length
        ≤ offsetAfter segment_length chunks (i + 1) := by
  intro i
  induction i with
  | zero =>
    intro h
    have h0 : offsetAfter segment_length chunks 0 = 0 := rfl
    have := offsetAfter_step segment_length chunks 0 h
    rw [h0] at this
    calc ((0 : ℚ) + 1) * segment_length = 0 + segment_length := by ring
      _ ≤ offsetAfter segment_length chunks 1 := this
  | succ m ih =>
    intro h
    have hm : m < chunks.length := Nat.lt_of_succ_lt h
    have hstep := offsetAfter_step segment_length chunks (m + 1) h
    have hcast : (((m : ℕ) + 1 : ℕ) : ℚ) = (m : ℚ) + 1 := by push_cast; ring
    calc (((m + 1 : ℕ) : ℚ) + 1) * segment_length
        = ((m : ℚ) + 1) * segment_length + segment_length := by
          push_cast; ring
      _ ≤ offsetAfter segment_length chunks (m + 1) + segment_length :=
          add_le_add_right (ih hm) _
      _ ≤ offsetAfter segment_length chunks (m + 1 + 1) := hstep

/-- C1: under the assumption that each engine result satisfies
0 <= start <= end, the running offset of transcribe_with_cache never
decreases, after chunk i it is at least (i+1) times the nominal chunk
duration, and every segment emitted from chunk i+1 starts no earlier than
any end emitted from chunk i and no earlier than (i+1) times the nominal
duration. -/
theorem offset_reassembly_invariant (segment_length : ℚ)
    (chunks : List (List ChunkResult))
    (hwf : ∀ c ∈ chunks, ∀ r ∈ c, 0 ≤ r.start ∧ r.start ≤ r.stop) :
    (∀ i, offsetAfter segment_length chunks i
        ≤ offsetAfter segment_length chunks (i + 1))
      ∧ (∀ i, i < chunks.length →
          ((i : ℚ) + 1) * segment_length
            ≤ offsetAfter segment_length chunks (i + 1))
      ∧ (∀ i, ∀ s ∈ chunkSegs segment_length chunks (i + 1),
          (∀ t ∈ chunkSegs segment_length chunks i, t.stop ≤ s.start)
            ∧ ((i : ℚ) + 1) * segment_length ≤ s.start) := by
  refine ⟨offsetAfter_mono segment_length chunks,
    offsetAfter_ge_nominal segment_length chunks, ?_⟩
  intro i s hs
  by_cases hlen : i + 1 < chunks.length
  · have hgetD : chunks.getD (i + 1) [] = chunks[i + 1] :=
      List.getD_eq_getElem chunks [] hlen
    have hwfc : ∀ r ∈ chunks[i + 1], 0 ≤ r.start :=
      fun r hr => (hwf chunks[i + 1] (List.getElem_mem hlen) r hr).1
    have hstart : offsetAfter segment_length chunks (i + 1) ≤ s.start := by
      unfold chunkSegs at hs
      rw [hgetD] at hs
      exact emitResults_start_ge (offsetAfter segment_length chunks (i + 1))
        chunks[i + 1] hwfc _ _ s hs
    refine ⟨fun t ht => le_trans
      (chunkSegs_stop_le_offsetAfter segment_length chunks i t ht) hstart, ?_⟩
    exact le_trans
      (offsetAfter_ge_nominal segment_length chunks i (Nat.lt_of_succ_lt hlen))
      hstart
  · exfalso
    have hgetD : chunks.getD (i + 1) [] = [] :=
      List.getD_eq_default chunks [] (Nat.le_of_not_lt hlen)
    unfold chunkSegs at hs
    rw [hgetD] at hs
    simp [emitResults] at hs

/-- Witness for C1: two chunks with one well-formed result each. -/
theorem offset_reassembly_invariant_witness :
    (∀ c ∈ [[(⟨0, 1, "hello"⟩ : ChunkResult)], [⟨0, 2, "world"⟩]],
        ∀ r ∈ c, 0 ≤ r.start ∧ r.start ≤ r.stop)
      ∧ ((∀ i, offsetAfter 60 [[⟨0, 1, "hello"⟩], [⟨0, 2, "world"⟩]] i
            ≤ offsetAfter 60 [[⟨0, 1, "hello"⟩], [⟨0, 2, "world"⟩]] (i + 1))
        ∧ (∀ i, i < ([[(⟨0, 1, "hello"⟩ : ChunkResult)], [⟨0, 2, "world"⟩]]).length →
            ((i : ℚ) + 1) * 60
              ≤ offsetAfter 60 [[⟨0, 1, "hello"⟩], [⟨0, 2, "world"⟩]] (i + 1))
        ∧ (∀ i, ∀ s ∈ chunkSegs 60 [[⟨0, 1, "hello"⟩], [⟨0, 2, "world"⟩]] (i + 1),
            (∀ t ∈ chunkSegs 60 [[⟨0, 1, "hello"⟩], [⟨0, 2, "world"⟩]] i,
              t.stop ≤ s.start)
              ∧ ((i : ℚ) + 1) * 60 ≤ s.start)) := by
  have hwf : ∀ c ∈ [[(⟨0, 1, "hello"⟩ : ChunkResult)], [⟨0, 2, "world"⟩]],
      ∀ r ∈ c, 0 ≤ r.start ∧ r.start ≤ r.stop := by
    intro c hc r hr
    rcases List.mem_cons.mp hc with rfl | hc'
    · rcases List.mem_singleton.mp hr with rfl
      exact ⟨le_refl 0, by norm_num⟩
    · rcases List.mem_singleton.mp hc' with rfl
      rcases List.mem_singleton.mp hr with rfl
      exact ⟨le_refl 0, by norm_num⟩
  exact ⟨hwf, offset_reassembly_invariant 60 _ hwf⟩

/-- Witness for C3 with a two-compute-type constructor that only supports
float32. -/
theorem model_cache_fallback_witness :
    ((fun _ : ModelKey => (none : Option String)) ("large", "cuda", "float16")
        = none)
      ∧ ((fun k : ModelKey =>
            if k.2.2 = "float32" then Except.ok "handle"
            else Except.error (PyExc.valueError "unsupported compute type"))
          ("large", "cuda", "float16")
          = Except.error (PyExc.valueError "unsupported compute type"))
      ∧ caughtByComputeFallback (PyExc.valueError "unsupported compute type")
          = true
      ∧ (("float16" : String) ≠ "float32" →
          (fun k : ModelKey =>
            if k.2.2 = "float32" then Except.ok "handle"
            else Except.error (PyExc.valueError "unsupported compute type"))
            ("large", "cuda", "float32") = Except.ok "handle" →
          ∃ models₁,
            ModelCache.get
                (fun k : ModelKey =>
                  if k.2.2 = "float32" then Except.ok "handle"
                  else Except.error (PyExc.valueError "unsupported compute type"))
                (fun _ => none) "large" "cuda" "float16"
              = (Except.ok "handle", models₁, 2)
            ∧ models₁ ("large", "cuda", "float16") = some "handle"
            ∧ models₁ ("large", "cuda", "float32") = some "handle"
            ∧ ModelCache.get
                (fun k : ModelKey =>
                  if k.2.2 = "float32" then Except.ok "handle"
                  else Except.error (PyExc.valueError "unsupported compute type"))
                models₁ "large" "cuda" "float16"
              = (Except.ok "handle", models₁, 0)) := by
  refine ⟨rfl, rfl, rfl, ?_⟩
  intro hne hfb
  exact (model_cache_fallback
    (fun k : ModelKey =>
      if k.2.2 = "float32" then Except.ok "handle"
      else Except.error (PyExc.valueError "unsupported compute type"))
    (fun _ => none) "large" "cuda" "float16"
    (PyExc.valueError "unsupported compute type") "handle"
    rfl rfl rfl).1 hne hfb

end TranscriptTool
